import Mathlib

/-!
Verification of the announcements router of a school management backend
(`src/backend/routers/announcements.py`).

The router exposes five operations over two MongoDB collections:
`get_active_announcements`, `get_all_announcements`, `create_announcement`,
`update_announcement`, `delete_announcement`.  We embed the collections as
Lean lists, BSON `ObjectId` values as their 24-hex-digit string form, and
`datetime.fromisoformat` as an abstract success predicate `parse_ok`
(the control flow of the router never inspects a parsed date, only whether
parsing succeeded, so this abstraction is exact).  The current clock
reading `datetime.utcnow().isoformat() + "Z"` and the ObjectId assigned by
`insert_one` are passed in as explicit parameters.
-/

namespace Announcements

/-- A document of the `announcements` collection.  `_id` holds the string
form of the BSON ObjectId; fields that MongoDB documents may simply lack
(`start_date`, `updated_by`, `updated_at`) are `Option`s, with `none`
meaning the field is absent from the document. -/
structure Announcement where
  _id : String
  message : String
  expiration_date : String
  created_by : String
  created_at : String
  start_date : Option String := none
  updated_by : Option String := none
  updated_at : Option String := none
deriving Repr, DecidableEq

/-- Outcomes a request can end in besides a successful response:
`httpError` is a raised `fastapi.HTTPException` with its status code and
detail string; `invalidIdException` is the `bson.errors.InvalidId`
exception escaping from the `ObjectId(...)` constructor (unhandled by the
router); `pyTypeError` is a Python `TypeError` from subscripting `None`. -/
inductive ApiError where
  | httpError (status_code : Nat) (detail : String)
  | invalidIdException (value : String)
  | pyTypeError
deriving Repr, DecidableEq

/-- Validity check `bson.ObjectId.is_valid` on a string argument: exactly 24 hexadecimal
digits. -/
def ObjectId_is_valid (s : String) : Bool :=
  s.length == 24 && s.data.all fun c =>
    c.isDigit || ('a' ≤ c && c ≤ 'f') || ('A' ≤ c && c ≤ 'F')

/-- The string form of `ObjectId(s)` for a valid `s`: `str(ObjectId(s))`
is the lowercase hex spelling. -/
def oidOf (s : String) : String := s.toLower

/-- Python truthiness of an `Optional[str]`: `None` and `""` are falsy. -/
def truthy : Option String → Bool
  | none => false
  | some s => !s.isEmpty

/-- Python falsiness of an `Optional[str]` (used by `if not teacher_username`). -/
def falsy (o : Option String) : Bool := !truthy o

/-- Success of `datetime.fromisoformat(s.replace("Z", "+00:00"))`, with
`parse_ok` abstracting `datetime.fromisoformat`'s success on its final
argument. -/
def iso_ok (parse_ok : String → Bool) (s : String) : Bool :=
  parse_ok (s.replace "Z" "+00:00")

/-- The `try`-block of `create_announcement` / `update_announcement`:
parse `expiration_date`, and `start_date` only when it is truthy. -/
def dates_ok (parse_ok : String → Bool) (expiration_date : String)
    (start_date : Option String) : Bool :=
  iso_ok parse_ok expiration_date &&
    (!truthy start_date || iso_ok parse_ok (start_date.getD ""))

/-- The active-window filter of `get_active_announcements`:
`(start_date absent OR start_date <= now) AND expiration_date >= now`,
comparing ISO 8601 strings lexicographically (as MongoDB compares
strings). -/
def isActive (current_time : String) (a : Announcement) : Bool :=
  (match a.start_date with
   | none => true
   | some s => decide (s ≤ current_time)) &&
  decide (current_time ≤ a.expiration_date)

/-- The order `.sort("created_at", -1)` produces: `created_at`
descending. -/
def created_desc (a b : Announcement) : Prop :=
  b.created_at ≤ a.created_at

instance : DecidableRel created_desc := fun a b =>
  inferInstanceAs (Decidable (b.created_at ≤ a.created_at))

instance : IsTotal Announcement created_desc :=
  ⟨fun a b => le_total b.created_at a.created_at⟩

instance : IsTrans Announcement created_desc :=
  ⟨fun _ _ _ h1 h2 => le_trans h2 h1⟩

/-- Store operation `collection.find_one({"_id": oid})`: first document whose `_id`
matches. -/
def find_one (oid : String) (store : List Announcement) : Option Announcement :=
  store.find? fun a => a._id == oid

/-- Store operation `collection.update_one({"_id": oid}, ...)`: apply `f` to the first
matching document; return the `matched_count` and the new collection. -/
def update_first (oid : String) (f : Announcement → Announcement) :
    List Announcement → Nat × List Announcement
  | [] => (0, [])
  | a :: rest =>
    if a._id == oid then (1, f a :: rest)
    else
      let r := update_first oid f rest
      (r.1, a :: r.2)

/-- Store operation `collection.delete_one({"_id": oid})`: remove the first matching
document; return the `deleted_count` and the new collection. -/
def delete_first (oid : String) :
    List Announcement → Nat × List Announcement
  | [] => (0, [])
  | a :: rest =>
    if a._id == oid then (1, rest)
    else
      let r := delete_first oid rest
      (r.1, a :: r.2)

/-- Endpoint `GET /announcements` — `get_active_announcements`: filter the
collection by the active-window query, sort by `created_at` descending,
return the documents (the `_id = str(_id)` rewrite is the identity in
this embedding). -/
def get_active_announcements (current_time : String)
    (store : List Announcement) : List Announcement :=
  List.insertionSort created_desc (store.filter (isActive current_time))

/-- Endpoint `GET /announcements/all` — `get_all_announcements`:
`if not teacher_username` → 401 authentication required; teacher lookup
fails → 401 invalid credentials; otherwise every document, sorted by
`created_at` descending. -/
def get_all_announcements (teacher_username : Option String)
    (teachers : List String) (store : List Announcement) :
    Except ApiError (List Announcement) :=
  if falsy teacher_username then
    .error (.httpError 401 "Authentication required for this action")
  else if !teachers.contains (teacher_username.getD "") then
    .error (.httpError 401 "Invalid teacher credentials")
  else
    .ok (List.insertionSort created_desc store)

/-- Endpoint `POST /announcements` — `create_announcement`.  `teachers` is the set
of `_id`s present in the teachers collection, `now` the clock reading,
`newOid` the ObjectId `insert_one` assigns.  Returns the response (or
raised error) together with the announcements collection after the call. -/
def create_announcement (message expiration_date teacher_username : String)
    (start_date : Option String) (teachers : List String)
    (parse_ok : String → Bool) (now newOid : String)
    (store : List Announcement) :
    Except ApiError Announcement × List Announcement :=
  if !teachers.contains teacher_username then
    (.error (.httpError 401 "Invalid teacher credentials"), store)
  else if !dates_ok parse_ok expiration_date start_date then
    (.error (.httpError 400 "Invalid date format. Use ISO 8601 format"), store)
  else
    let announcement : Announcement :=
      { _id := newOid
        message := message
        expiration_date := expiration_date
        created_by := teacher_username
        created_at := now
        start_date := if truthy start_date then start_date else none }
    (.ok announcement, store ++ [announcement])

/-- Endpoint `PUT /announcements/{id}` — `update_announcement`.  After the teacher
and date checks, `ObjectId(announcement_id)` is evaluated (raising
`InvalidId` out of the router when malformed, before any store write);
when `start_date` is falsy a separate `$unset` of `start_date` is issued
first; then the `$set` of the remaining fields, whose `matched_count`
decides the 404. -/
def update_announcement (announcement_id message expiration_date
    teacher_username : String) (start_date : Option String)
    (teachers : List String) (parse_ok : String → Bool) (now : String)
    (store : List Announcement) :
    Except ApiError Announcement × List Announcement :=
  if !teachers.contains teacher_username then
    (.error (.httpError 401 "Invalid teacher credentials"), store)
  else if !dates_ok parse_ok expiration_date start_date then
    (.error (.httpError 400 "Invalid date format. Use ISO 8601 format"), store)
  else if !ObjectId_is_valid announcement_id then
    (.error (.invalidIdException announcement_id), store)
  else
    let oid := oidOf announcement_id
    let store1 :=
      if truthy start_date then store
      else (update_first oid (fun a => { a with start_date := none }) store).2
    let setFields : Announcement → Announcement := fun a =>
      let a1 := { a with
        message := message
        expiration_date := expiration_date
        updated_by := some teacher_username
        updated_at := some now }
      if truthy start_date then { a1 with start_date := start_date } else a1
    let r := update_first oid setFields store1
    if r.1 == 0 then
      (.error (.httpError 404 "Announcement not found"), r.2)
    else
      match find_one oid r.2 with
      | some a => (.ok a, r.2)
      | none => (.error .pyTypeError, r.2)

/-- Endpoint `DELETE /announcements/{id}` — `delete_announcement`: teacher check,
then `ObjectId.is_valid` (400 before any store delete), then
`delete_one` whose `deleted_count` decides the 404; on success the
confirmation message. -/
def delete_announcement (announcement_id teacher_username : String)
    (teachers : List String) (store : List Announcement) :
    Except ApiError String × List Announcement :=
  if !teachers.contains teacher_username then
    (.error (.httpError 401 "Invalid teacher credentials"), store)
  else if !ObjectId_is_valid announcement_id then
    (.error (.httpError 400 "Invalid announcement_id format"), store)
  else
    let r := delete_first (oidOf announcement_id) store
    if r.1 == 0 then
      (.error (.httpError 404 "Announcement not found"), r.2)
    else
      (.ok "Announcement deleted successfully", r.2)

/-- The document a successful `update_announcement` leaves in the store:
the `$set` fields replaced, `start_date` either set (truthy input) or
removed by the preceding `$unset` (falsy input), everything else kept. -/
def setDoc (message expiration_date teacher_username now : String)
    (start_date : Option String) (a : Announcement) : Announcement :=
  { a with
    message := message
    expiration_date := expiration_date
    updated_by := some teacher_username
    updated_at := some now
    start_date := if truthy start_date then start_date else none }

/-- A concrete stored announcement used to instantiate theorems. -/
def sampleDoc : Announcement :=
  { _id := oidOf "0123456789abcdef01234567"
    message := "old"
    expiration_date := "2030-01-01T00:00:00Z"
    created_by := "t"
    created_at := "2025-01-01T00:00:00Z"
    start_date := some "2024-01-01T00:00:00Z" }

theorem contains_eq_true_of_mem {u : String} {l : List String} (h : u ∈ l) :
    l.contains u = true := by
  induction l with
  | nil => cases h
  | cons b t ih =>
    rcases List.mem_cons.mp h with h' | h'
    · simp [List.contains, h']
    · simp [List.contains, List.elem_cons]
      rcases List.mem_cons.mp h with h'' | h''
      · exact Or.inl (by simp [h''])
      · exact Or.inr (by simpa [List.contains] using ih h'')

theorem update_first_of_not_found (oid : String) (f : Announcement → Announcement)
    (store : List Announcement) (h : ∀ b ∈ store, b._id ≠ oid) :
    update_first oid f store = (0, store) := by
  induction store with
  | nil => rfl
  | cons b t ih =>
    have hb : (b._id == oid) = false := by
      simpa using h b (List.mem_cons_self b t)
    simp [update_first, hb, ih fun x hx => h x (List.mem_cons_of_mem b hx)]

theorem update_first_of_found (oid : String) (f : Announcement → Announcement)
    (pre : List Announcement) (a : Announcement) (post : List Announcement)
    (ha : a._id = oid) (hpre : ∀ b ∈ pre, b._id ≠ oid) :
    update_first oid f (pre ++ a :: post) = (1, pre ++ f a :: post) := by
  induction pre with
  | nil => simp [update_first, ha]
  | cons b t ih =>
    have hb : (b._id == oid) = false := by
      simpa using hpre b (List.mem_cons_self b t)
    simp [update_first, hb, ih fun x hx => hpre x (List.mem_cons_of_mem b hx)]

theorem delete_first_of_not_found (oid : String) (store : List Announcement)
    (h : ∀ b ∈ store, b._id ≠ oid) :
    delete_first oid store = (0, store) := by
  induction store with
  | nil => rfl
  | cons b t ih =>
    have hb : (b._id == oid) = false := by
      simpa using h b (List.mem_cons_self b t)
    simp [delete_first, hb, ih fun x hx => h x (List.mem_cons_of_mem b hx)]

theorem delete_first_of_found (oid : String)
    (pre : List Announcement) (a : Announcement) (post : List Announcement)
    (ha : a._id = oid) (hpre : ∀ b ∈ pre, b._id ≠ oid) :
    delete_first oid (pre ++ a :: post) = (1, pre ++ post) := by
  induction pre with
  | nil => simp [delete_first, ha]
  | cons b t ih =>
    have hb : (b._id == oid) = false := by
      simpa using hpre b (List.mem_cons_self b t)
    simp [delete_first, hb, ih fun x hx => hpre x (List.mem_cons_of_mem b hx)]

theorem find_one_of_found (oid : String)
    (pre : List Announcement) (a : Announcement) (post : List Announcement)
    (ha : a._id = oid) (hpre : ∀ b ∈ pre, b._id ≠ oid) :
    find_one oid (pre ++ a :: post) = some a := by
  induction pre with
  | nil => simp [find_one, List.find?, ha]
  | cons b t ih =>
    have hb : (b._id == oid) = false := by
      simpa using hpre b (List.mem_cons_self b t)
    simpa [find_one, List.find?, hb] using
      ih fun x hx => hpre x (List.mem_cons_of_mem b hx)

theorem update_announcement_found (announcement_id message expiration_date
    teacher_username : String) (start_date : Option String)
    (teachers : List String) (parse_ok : String → Bool) (now : String)
    (pre : List Announcement) (a : Announcement) (post : List Announcement)
    (hu : teacher_username ∈ teachers)
    (hd : dates_ok parse_ok expiration_date start_date = true)
    (hv : ObjectId_is_valid announcement_id = true)
    (ha : a._id = oidOf announcement_id)
    (hpre : ∀ b ∈ pre, b._id ≠ oidOf announcement_id) :
    update_announcement announcement_id message expiration_date teacher_username
        start_date teachers parse_ok now (pre ++ a :: post) =
      (.ok (setDoc message expiration_date teacher_username now start_date a),
       pre ++ setDoc message expiration_date teacher_username now start_date a
         :: post) := by
  have ha' : (Announcement.mk a._id a.message a.expiration_date a.created_by
      a.created_at none a.updated_by a.updated_at)._id = oidOf announcement_id := ha
  cases hsd : truthy start_date
  · simp only [update_announcement, contains_eq_true_of_mem hu, hd, hv, hsd,
      Bool.not_true, Bool.not_false, if_false, if_true, ite_true, ite_false,
      Bool.false_eq_true, Bool.true_eq_false, reduceIte,
      update_first_of_found _ _ pre a post ha hpre,
      update_first_of_found _ _ pre _ post ha' hpre, setDoc]
    rw [find_one_of_found (oidOf announcement_id) pre
      { a with
        message := message
        expiration_date := expiration_date
        start_date := none
        updated_by := some teacher_username
        updated_at := some now } post ha hpre]
    rfl
  · simp only [update_announcement, contains_eq_true_of_mem hu, hd, hv, hsd,
      Bool.not_true, Bool.not_false, if_false, if_true, ite_true, ite_false,
      Bool.false_eq_true, Bool.true_eq_false, reduceIte,
      update_first_of_found _ _ pre a post ha hpre, setDoc]
    rw [find_one_of_found (oidOf announcement_id) pre
      { a with
        message := message
        expiration_date := expiration_date
        start_date := start_date
        updated_by := some teacher_username
        updated_at := some now } post ha hpre]
    rfl

/-- C1: `get_active_announcements` returns exactly the stored announcements
satisfying the active-window invariant at the current time: an announcement
is included iff (start_date is absent OR start_date ≤ now) AND
expiration_date ≥ now, the comparisons being lexicographic on the ISO 8601
strings. -/
theorem C1_list_active_exactly_active (current_time : String)
    (store : List Announcement) (a : Announcement) :
    a ∈ get_active_announcements current_time store ↔
      a ∈ store ∧
        ((a.start_date = none ∨
            ∃ s, a.start_date = some s ∧ s ≤ current_time) ∧
          current_time ≤ a.expiration_date) := by
  rw [get_active_announcements, List.mem_insertionSort, List.mem_filter]
  cases h : a.start_date <;> simp [isActive, h]

/-- C6: `get_all_announcements` fails with AuthenticationRequired when no
(truthy) teacher_username is supplied, fails with InvalidCredentials when a
supplied teacher_username does not resolve to a teacher record, and on
success returns every stored announcement regardless of active window. -/
theorem C6_list_all_auth_and_completeness (teachers : List String)
    (store : List Announcement) :
    (get_all_announcements none teachers store =
      .error (.httpError 401 "Authentication required for this action")) ∧
    (get_all_announcements (some "") teachers store =
      .error (.httpError 401 "Authentication required for this action")) ∧
    (∀ u, u ≠ "" → u ∉ teachers →
      get_all_announcements (some u) teachers store =
        .error (.httpError 401 "Invalid teacher credentials")) ∧
    (∀ u, u ≠ "" → u ∈ teachers →
      ∃ l, get_all_announcements (some u) teachers store = .ok l ∧
        ∀ a, a ∈ l ↔ a ∈ store) := by
  refine ⟨rfl, rfl, ?_, ?_⟩
  · intro u hne hnm
    have hes : u.isEmpty = false := by
      cases hes : u.isEmpty
      · rfl
      · exact absurd ((String.isEmpty_iff u).mp hes) hne
    simp [get_all_announcements, falsy, truthy, hes, hnm]
  · intro u hne hmem
    have hes : u.isEmpty = false := by
      cases hes : u.isEmpty
      · rfl
      · exact absurd ((String.isEmpty_iff u).mp hes) hne
    refine ⟨List.insertionSort created_desc store, ?_, ?_⟩
    · simp [get_all_announcements, falsy, truthy, hes, hmem]
    · intro a
      exact List.mem_insertionSort created_desc

/-- C6 witness: all four cases instantiated at concrete inputs. -/
theorem C6_witness :
    (get_all_announcements none ["t"] [] =
      .error (.httpError 401 "Authentication required for this action")) ∧
    (get_all_announcements (some "x") ["t"] [] =
      .error (.httpError 401 "Invalid teacher credentials")) ∧
    (∃ l, get_all_announcements (some "t") ["t"] [] = .ok l ∧
      ∀ a, a ∈ l ↔ a ∈ ([] : List Announcement)) :=
  ⟨(C6_list_all_auth_and_completeness ["t"] []).1,
   (C6_list_all_auth_and_completeness ["t"] []).2.2.1 "x" (by decide)
     (by simp),
   (C6_list_all_auth_and_completeness ["t"] []).2.2.2 "t" (by decide)
     (by simp)⟩

/-- C7: both listing operations return their results ordered by
`created_at` descending. -/
theorem C7_listings_sorted :
    (∀ current_time store,
      List.Sorted created_desc (get_active_announcements current_time store)) ∧
    (∀ teacher_username teachers store l,
      get_all_announcements teacher_username teachers store = .ok l →
      List.Sorted created_desc l) := by
  constructor
  · intro current_time store
    exact List.sorted_insertionSort created_desc _
  · intro tu teachers store l h
    unfold get_all_announcements at h
    split at h
    · simp at h
    · split at h
      · simp at h
      · simp only [Except.ok.injEq] at h
        subst h
        exact List.sorted_insertionSort created_desc store

/-- C7 witness: both conjuncts instantiated at concrete inputs. -/
theorem C7_witness :
    List.Sorted created_desc (get_active_announcements "" []) ∧
    List.Sorted created_desc ([] : List Announcement) :=
  ⟨C7_listings_sorted.1 "" [],
   C7_listings_sorted.2 (some "t") ["t"] [] [] rfl⟩

/-- C2: `create_announcement` fails with InvalidCredentials when the
teacher_username does not resolve, fails with InvalidDateFormat when the
expiration_date (or a supplied non-empty start_date) does not parse, and in
every such failure the announcement store is unchanged. -/
theorem C2_create_error_cases (message expiration_date teacher_username : String)
    (start_date : Option String) (teachers : List String)
    (parse_ok : String → Bool) (now newOid : String)
    (store : List Announcement) :
    (teacher_username ∉ teachers →
      create_announcement message expiration_date teacher_username start_date
          teachers parse_ok now newOid store =
        (.error (.httpError 401 "Invalid teacher credentials"), store)) ∧
    (teacher_username ∈ teachers →
      iso_ok parse_ok expiration_date = false →
      create_announcement message expiration_date teacher_username start_date
          teachers parse_ok now newOid store =
        (.error (.httpError 400 "Invalid date format. Use ISO 8601 format"),
         store)) ∧
    (∀ s, teacher_username ∈ teachers → start_date = some s → s ≠ "" →
      iso_ok parse_ok s = false →
      create_announcement message expiration_date teacher_username start_date
          teachers parse_ok now newOid store =
        (.error (.httpError 400 "Invalid date format. Use ISO 8601 format"),
         store)) := by
  refine ⟨?_, ?_, ?_⟩
  · intro hnm
    simp [create_announcement, hnm]
  · intro hu he
    simp [create_announcement, dates_ok, hu, he]
  · intro s hu hsd hne hs
    subst hsd
    have hes : s.isEmpty = false := by
      cases hes : s.isEmpty
      · rfl
      · exact absurd ((String.isEmpty_iff s).mp hes) hne
    simp [create_announcement, dates_ok, truthy, hu, hes, hs]

/-- C2 witness: the three failure cases at concrete inputs. -/
theorem C2_witness :
    (create_announcement "m" "2030-01-01T00:00:00Z" "u" none ["t"]
        (fun _ => true) "now" "0123456789abcdef01234567" [] =
      (.error (.httpError 401 "Invalid teacher credentials"), [])) ∧
    (create_announcement "m" "bad" "t" none ["t"]
        (fun _ => false) "now" "0123456789abcdef01234567" [] =
      (.error (.httpError 400 "Invalid date format. Use ISO 8601 format"),
       [])) ∧
    (create_announcement "m" "2030" "t" (some "bad") ["t"]
        (fun _ => false) "now" "0123456789abcdef01234567" [] =
      (.error (.httpError 400 "Invalid date format. Use ISO 8601 format"),
       [])) :=
  ⟨(C2_create_error_cases "m" "2030-01-01T00:00:00Z" "u" none ["t"]
      (fun _ => true) "now" "0123456789abcdef01234567" []).1 (by decide),
   (C2_create_error_cases "m" "bad" "t" none ["t"]
      (fun _ => false) "now" "0123456789abcdef01234567" []).2.1
     (by decide) rfl,
   (C2_create_error_cases "m" "2030" "t" (some "bad") ["t"]
      (fun _ => false) "now" "0123456789abcdef01234567" []).2.2 "bad"
     (by decide) rfl (by decide) rfl⟩

/-- C3: a successful `update_announcement` replaces exactly message,
expiration_date, updated_by and updated_at, sets start_date when a
non-empty one is supplied and removes any stored start_date when it is
omitted, leaves `_id`, created_by and created_at unchanged, affects no
other record, and returns the updated record. -/
theorem C3_update_frame (announcement_id message expiration_date
    teacher_username now : String) (start_date : Option String)
    (teachers : List String) (parse_ok : String → Bool)
    (pre : List Announcement) (a : Announcement) (post : List Announcement)
    (hu : teacher_username ∈ teachers)
    (hd : dates_ok parse_ok expiration_date start_date = true)
    (hv : ObjectId_is_valid announcement_id = true)
    (ha : a._id = oidOf announcement_id)
    (hpre : ∀ b ∈ pre, b._id ≠ oidOf announcement_id) :
    (update_announcement announcement_id message expiration_date
        teacher_username start_date teachers parse_ok now (pre ++ a :: post) =
      (.ok (setDoc message expiration_date teacher_username now start_date a),
       pre ++ setDoc message expiration_date teacher_username now start_date a
         :: post)) ∧
    (setDoc message expiration_date teacher_username now start_date a)._id
      = a._id ∧
    (setDoc message expiration_date teacher_username now start_date a).created_by
      = a.created_by ∧
    (setDoc message expiration_date teacher_username now start_date a).created_at
      = a.created_at ∧
    (setDoc message expiration_date teacher_username now start_date a).message
      = message ∧
    (setDoc message expiration_date teacher_username now start_date a).expiration_date
      = expiration_date ∧
    (setDoc message expiration_date teacher_username now start_date a).updated_by
      = some teacher_username ∧
    (setDoc message expiration_date teacher_username now start_date a).updated_at
      = some now ∧
    (∀ s, start_date = some s → s ≠ "" →
      (setDoc message expiration_date teacher_username now start_date a).start_date
        = some s) ∧
    (start_date = none →
      (setDoc message expiration_date teacher_username now start_date a).start_date
        = none) := by
  refine ⟨update_announcement_found announcement_id message expiration_date
    teacher_username start_date teachers parse_ok now pre a post
    hu hd hv ha hpre, rfl, rfl, rfl, rfl, rfl, rfl, rfl, ?_, ?_⟩
  · intro s hsd hne
    subst hsd
    have hes : s.isEmpty = false := by
      cases hes : s.isEmpty
      · rfl
      · exact absurd ((String.isEmpty_iff s).mp hes) hne
    simp [setDoc, truthy, hes]
  · intro hsd
    subst hsd
    simp [setDoc, truthy]

/-- C5: `update_announcement` by a valid teacher with valid dates and a
well-formed identifier fails with NotFound, leaving the store unchanged,
when no announcement has the target identifier. -/
theorem C5_update_not_found (announcement_id message expiration_date
    teacher_username now : String) (start_date : Option String)
    (teachers : List String) (parse_ok : String → Bool)
    (store : List Announcement)
    (hu : teacher_username ∈ teachers)
    (hd : dates_ok parse_ok expiration_date start_date = true)
    (hv : ObjectId_is_valid announcement_id = true)
    (habs : ∀ b ∈ store, b._id ≠ oidOf announcement_id) :
    update_announcement announcement_id message expiration_date
        teacher_username start_date teachers parse_ok now store =
      (.error (.httpError 404 "Announcement not found"), store) := by
  cases hsd : truthy start_date <;>
    simp [update_announcement, hu, hd, hv, hsd,
      update_first_of_not_found _ _ store habs]

/-- C10: `update_announcement` by a valid teacher with valid dates but a
malformed announcement_id terminates with the unhandled `InvalidId`
exception from the `ObjectId` constructor — an outcome outside the HTTP
error taxonomy — before any announcement-store write. -/
theorem C10_update_malformed_id (announcement_id message expiration_date
    teacher_username now : String) (start_date : Option String)
    (teachers : List String) (parse_ok : String → Bool)
    (store : List Announcement)
    (hu : teacher_username ∈ teachers)
    (hd : dates_ok parse_ok expiration_date start_date = true)
    (hv : ObjectId_is_valid announcement_id = false) :
    update_announcement announcement_id message expiration_date
        teacher_username start_date teachers parse_ok now store =
      (.error (.invalidIdException announcement_id), store) ∧
    (∀ status_code detail,
      ApiError.invalidIdException announcement_id ≠
        ApiError.httpError status_code detail) := by
  refine ⟨?_, ?_⟩
  · simp [update_announcement, hu, hd, hv]
  · intro c d
    simp

/-- C4: `delete_announcement` by a valid teacher rejects a malformed
identifier with InvalidIdentifierFormat before touching the store, fails
with NotFound for a well-formed but absent identifier, and otherwise
removes exactly the matching record and returns the confirmation. -/
theorem C4_delete_cases (announcement_id teacher_username : String)
    (teachers : List String) (store : List Announcement)
    (hu : teacher_username ∈ teachers) :
    (ObjectId_is_valid announcement_id = false →
      delete_announcement announcement_id teacher_username teachers store =
        (.error (.httpError 400 "Invalid announcement_id format"), store)) ∧
    (ObjectId_is_valid announcement_id = true →
      (∀ b ∈ store, b._id ≠ oidOf announcement_id) →
      delete_announcement announcement_id teacher_username teachers store =
        (.error (.httpError 404 "Announcement not found"), store)) ∧
    (∀ pre a post, ObjectId_is_valid announcement_id = true →
      a._id = oidOf announcement_id →
      (∀ b ∈ pre, b._id ≠ oidOf announcement_id) →
      delete_announcement announcement_id teacher_username teachers
          (pre ++ a :: post) =
        (.ok "Announcement deleted successfully", pre ++ post)) := by
  refine ⟨?_, ?_, ?_⟩
  · intro hv
    simp [delete_announcement, hu, hv]
  · intro hv habs
    simp [delete_announcement, hu, hv,
      delete_first_of_not_found _ store habs]
  · intro pre a post hv ha hpre
    simp [delete_announcement, hu, hv,
      delete_first_of_found _ pre a post ha hpre]

/-- C8: after a successful create by a valid teacher, `find_one` on the
returned identifier yields a record whose message and expiration_date are
the caller's strings verbatim, with the store-assigned string identifier
and a created_at timestamp. -/
theorem C8_create_round_trip (message expiration_date teacher_username : String)
    (teachers : List String) (parse_ok : String → Bool) (now newOid : String)
    (store : List Announcement)
    (hu : teacher_username ∈ teachers)
    (he : iso_ok parse_ok expiration_date = true)
    (hfresh : ∀ b ∈ store, b._id ≠ newOid) :
    ∃ a, create_announcement message expiration_date teacher_username none
        teachers parse_ok now newOid store = (.ok a, store ++ [a]) ∧
      a.message = message ∧ a.expiration_date = expiration_date ∧
      a._id = newOid ∧ a.created_at = now ∧
      find_one newOid (store ++ [a]) = some a := by
  refine ⟨{ _id := newOid
            message := message
            expiration_date := expiration_date
            created_by := teacher_username
            created_at := now }, ?_, rfl, rfl, rfl, rfl, ?_⟩
  · simp [create_announcement, dates_ok, truthy, hu, he]
  · exact find_one_of_found newOid store _ [] rfl hfresh

/-- C9: create and update treat an empty-string start_date exactly as an
absent one: it is never date-validated (the result does not depend on the
parser's verdict on it), create stores no start_date field, and update
given it removes any stored start_date field. -/
theorem C9_empty_string_start_date (announcement_id message expiration_date
    teacher_username now newOid : String) (teachers : List String)
    (parse_ok : String → Bool) (store pre post : List Announcement)
    (a : Announcement) :
    (create_announcement message expiration_date teacher_username (some "")
        teachers parse_ok now newOid store =
      create_announcement message expiration_date teacher_username none
        teachers parse_ok now newOid store) ∧
    (update_announcement announcement_id message expiration_date
        teacher_username (some "") teachers parse_ok now store =
      update_announcement announcement_id message expiration_date
        teacher_username none teachers parse_ok now store) ∧
    (teacher_username ∈ teachers →
      iso_ok parse_ok expiration_date = true →
      ObjectId_is_valid announcement_id = true →
      a._id = oidOf announcement_id →
      (∀ b ∈ pre, b._id ≠ oidOf announcement_id) →
      update_announcement announcement_id message expiration_date
          teacher_username (some "") teachers parse_ok now (pre ++ a :: post) =
        (.ok (setDoc message expiration_date teacher_username now (some "") a),
         pre ++ setDoc message expiration_date teacher_username now (some "") a
           :: post) ∧
      (setDoc message expiration_date teacher_username now (some "") a).start_date
        = none) := by
  refine ⟨rfl, rfl, ?_⟩
  intro hu he hv ha hpre
  refine ⟨update_announcement_found announcement_id message expiration_date
    teacher_username (some "") teachers parse_ok now pre a post hu
    (by simp [dates_ok, truthy, he]; exact Or.inl rfl) hv ha hpre, rfl⟩

/-- C3 witness: the update frame theorem at a concrete store. -/
theorem C3_witness :
    (update_announcement "0123456789abcdef01234567" "new" "2031-01-01" "t"
        none ["t"] (fun _ => true) "now" ([] ++ sampleDoc :: []) =
      (.ok (setDoc "new" "2031-01-01" "t" "now" none sampleDoc),
       [] ++ setDoc "new" "2031-01-01" "t" "now" none sampleDoc :: [])) ∧
    (setDoc "new" "2031-01-01" "t" "now" none sampleDoc).created_by
      = sampleDoc.created_by ∧
    (setDoc "new" "2031-01-01" "t" "now" none sampleDoc).created_at
      = sampleDoc.created_at ∧
    (setDoc "new" "2031-01-01" "t" "now" none sampleDoc).start_date = none :=
  have h := C3_update_frame "0123456789abcdef01234567" "new" "2031-01-01" "t"
    "now" none ["t"] (fun _ => true) [] sampleDoc [] (by decide) rfl
    (by decide) rfl (by simp)
  ⟨h.1, h.2.2.1, h.2.2.2.1, h.2.2.2.2.2.2.2.2.2 rfl⟩

/-- C4 witness: the three delete cases at concrete inputs. -/
theorem C4_witness :
    (delete_announcement "zzz" "t" ["t"] [sampleDoc] =
      (.error (.httpError 400 "Invalid announcement_id format"),
       [sampleDoc])) ∧
    (delete_announcement "0123456789abcdef01234567" "t" ["t"] [] =
      (.error (.httpError 404 "Announcement not found"), [])) ∧
    (delete_announcement "0123456789abcdef01234567" "t" ["t"]
        ([] ++ sampleDoc :: []) =
      (.ok "Announcement deleted successfully",
       ([] : List Announcement) ++ [])) :=
  ⟨(C4_delete_cases "zzz" "t" ["t"] [sampleDoc] (by decide)).1 (by decide),
   (C4_delete_cases "0123456789abcdef01234567" "t" ["t"] [] (by decide)).2.1
     (by decide) (by simp),
   (C4_delete_cases "0123456789abcdef01234567" "t" ["t"] [] (by decide)).2.2
     [] sampleDoc [] (by decide) rfl (by simp)⟩

/-- C5 witness: update on an empty store fails with NotFound. -/
theorem C5_witness :
    update_announcement "0123456789abcdef01234567" "new" "2031-01-01" "t"
        none ["t"] (fun _ => true) "now" [] =
      (.error (.httpError 404 "Announcement not found"), []) :=
  C5_update_not_found "0123456789abcdef01234567" "new" "2031-01-01" "t" "now"
    none ["t"] (fun _ => true) [] (by decide) rfl (by decide) (by simp)

/-- C8 witness: the round trip at concrete inputs. -/
theorem C8_witness :
    ∃ a, create_announcement "M" "2030-01-01T00:00:00Z" "t" none ["t"]
        (fun _ => true) "now" "0123456789abcdef01234567" [] =
        (.ok a, [] ++ [a]) ∧
      a.message = "M" ∧ a.expiration_date = "2030-01-01T00:00:00Z" ∧
      a._id = "0123456789abcdef01234567" ∧ a.created_at = "now" ∧
      find_one "0123456789abcdef01234567" ([] ++ [a]) = some a :=
  C8_create_round_trip "M" "2030-01-01T00:00:00Z" "t" ["t"] (fun _ => true)
    "now" "0123456789abcdef01234567" [] (by decide) rfl (by simp)

/-- C9 witness: update with an empty-string start_date removes the stored
start_date of a concrete record. -/
theorem C9_witness :
    (update_announcement "0123456789abcdef01234567" "new" "2031-01-01" "t"
        (some "") ["t"] (fun _ => true) "now" ([] ++ sampleDoc :: []) =
      (.ok (setDoc "new" "2031-01-01" "t" "now" (some "") sampleDoc),
       [] ++ setDoc "new" "2031-01-01" "t" "now" (some "") sampleDoc :: [])) ∧
    (setDoc "new" "2031-01-01" "t" "now" (some "") sampleDoc).start_date
      = none :=
  (C9_empty_string_start_date "0123456789abcdef01234567" "new" "2031-01-01"
      "t" "now" "ffffffffffffffffffffffff" ["t"] (fun _ => true) [] [] []
      sampleDoc).2.2 (by decide) rfl (by decide) rfl (by simp)

/-- C10 witness: a malformed identifier makes update raise the InvalidId
exception, leaving the store unchanged. -/
theorem C10_witness :
    update_announcement "zzz" "m" "2031-01-01" "t" none ["t"]
        (fun _ => true) "now" [sampleDoc] =
      (.error (.invalidIdException "zzz"), [sampleDoc]) :=
  (C10_update_malformed_id "zzz" "m" "2031-01-01" "t" "now" none ["t"]
      (fun _ => true) [sampleDoc] (by decide) rfl (by decide)).1

end Announcements
